import Mathlib

/-!
# Painter — verification of the compositing / layer / persistence core

Shallow embedding of the Relst/Painter repository (Python, numpy) and
proofs about it.  Pixels are RGBA quadruples of naturals; buffers are
lists of rows of pixels; the integer arithmetic of the source
(`uint32` intermediates, truncating division) is modelled over `Nat`,
and the source's `float` computations (opacity scaling, capsule
projection, spline interpolation) over `ℚ`, with truncation made
explicit.  Fallible Python code (raised exceptions) is modelled with
`Except String`.
-/

namespace Painter

/-- One RGBA pixel: four channel values (the dtype's integers, as `Nat`). -/
structure Pix where
  r : Nat
  g : Nat
  b : Nat
  a : Nat
deriving Repr, DecidableEq

/-- A pixel buffer, shape `(height, width, 4)`: a list of rows of pixels. -/
abbrev Buf := List (List Pix)

/-- numpy's `.shape` information of a buffer, for the compositor's
`top.shape != bottom.shape` check: row count and the per-row lengths. -/
def bufDims (buf : Buf) : Nat × List Nat :=
  (buf.length, buf.map List.length)

/-! ## Compositor (`Painter/canvas.py`, `alpha_composite`)

`alpha_composite` promotes both buffers to `uint32`, reads the top
opacity with `getattr(top, "opacity", 1.0)`, rescales the top alpha
when that opacity is not `1.0`, premultiplies, composites, and
un-premultiplies, clipping the result into `[0, max_val]`.

The source's premultiply lines are missing a trailing-axis expansion:
`top_rgb * top_a` (line 36), `bot_rgb * bot_a_raw` (line 37) and
`bot_rgb_p * inv_top_a` (line 41) multiply colour arrays of shape
`(h, w, 3)` by alpha arrays of shape `(h, w)` without the `[..., None]`
the author did write at line 46.  numpy aligns trailing axes, so:
  - the products raise `ValueError` unless `w ∈ {1, 3}` and the middle
    axes also match (`w = h`, `w = 1` or `h = 1`);
  - at `(1, 1)` the broadcast is elementwise and the arithmetic correct;
  - at `w = 3, h ∈ {1, 3}` every step completes but the premultiply
    factor for element `(j, i, c)` is drawn from the alpha arrays at
    row `i` (0 when `h = 1`) and column `c` — misaligned values;
  - at `w = 1, h > 1` the products broadcast to `(h, h, 3)` and the
    function fails later: the boolean-mask un-premultiply (line 46)
    raises `IndexError` when some output alpha is positive, otherwise
    the final `(h, 1, 3)` assignment (line 51) raises `ValueError`.
The embedding reproduces each of these outcomes.  With channel values
bounded by `max_val` no `uint32` intermediate can overflow, so plain
`Nat` arithmetic is faithful; the `float32` rescale
`((a / max) * opacity * max)` truncated to `uint32` is the floor of the
exact rational. -/

/-- The effective top alpha of `alpha_composite` (canvas.py lines 30-34):
`if opacity != 1.0: top_a = ((top_a_raw / max_val) * opacity * max_val)`
truncated back to an integer, else the raw alpha. -/
def effTopAlpha (maxVal : Nat) (o : ℚ) (a : Nat) : Nat :=
  if o = 1 then a else ⌊((a : ℚ) / maxVal) * o * maxVal⌋₊

/-- The scalar premultiply / blend / un-premultiply sequence of
canvas.py lines 36-46 at one colour entry, with explicit alpha factors:
`topA`/`botA` are the premultiply factors (lines 36-37, and
`maxVal - topA` the line-41 factor), `outA` the output alpha used by
the masked un-premultiply (zero result where it is zero).  Division is
numpy's truncating integer `//`. -/
def compositeChan (maxVal topA botA outA tc bc : Nat) : Nat :=
  let tp := tc * topA / maxVal
  let bp := bc * botA / maxVal
  let op := tp + bp * (maxVal - topA) / maxVal
  if 0 < outA then op * maxVal / outA else 0

/-- The arithmetic of canvas.py lines 36-52 at a single element with all
factors taken from the same pixel — what the source computes where the
broadcast is elementwise (the `(1, 1)` shape), and the per-pixel
semantics the premultiply lines attempt. -/
def compositeCore (maxVal topA : Nat) (t bo : Pix) : Pix :=
  let outA : Nat := topA + bo.a * (maxVal - topA) / maxVal
  { r := min (compositeChan maxVal topA bo.a outA t.r bo.r) maxVal
    g := min (compositeChan maxVal topA bo.a outA t.g bo.g) maxVal
    b := min (compositeChan maxVal topA bo.a outA t.b bo.b) maxVal
    a := min outA maxVal }

/-- `compositeCore` at top opacity `o`. -/
def compositePix (maxVal : Nat) (o : ℚ) (t bo : Pix) : Pix :=
  compositeCore maxVal (effTopAlpha maxVal o t.a) t bo

/-- numpy element access `buf[j, i]` of a rectangular buffer. -/
def pixAt (buf : Buf) (j i : Nat) : Pix :=
  (buf.getD j []).getD i (Pix.mk 0 0 0 0)

/-- Colour channel `c ∈ {0, 1, 2}` of a pixel. -/
def chanOf (px : Pix) (c : Nat) : Nat :=
  if c = 0 then px.r else if c = 1 then px.g else px.b

/-- Output pixel `(j, i)` of `alpha_composite` in the shapes where the
misaligned premultiply nevertheless completes (`w = 3`, `h ∈ {1, 3}`):
the `(h, w)` alpha arrays broadcast against the channel axis, so the
factor for channel `c` comes from the alpha (and inverse-alpha) arrays
at row `i2 = 0` when `h = 1` else `i`, column `c`, while the output
alpha and the line-46 un-premultiply use the correct `(j, i)` entry. -/
def compositeMisaligned (maxVal : Nat) (o : ℚ) (top bottom : Buf)
    (h j i : Nat) : Pix :=
  let i2 := if h = 1 then 0 else i
  let tA := fun j2 i3 => effTopAlpha maxVal o (pixAt top j2 i3).a
  let bA := fun j2 i3 => (pixAt bottom j2 i3).a
  let outA := tA j i + bA j i * (maxVal - tA j i) / maxVal
  let ch := fun c => min (compositeChan maxVal (tA i2 c) (bA i2 c) outA
    (chanOf (pixAt top j i) c) (chanOf (pixAt bottom j i) c)) maxVal
  Pix.mk (ch 0) (ch 1) (ch 2) (min outA maxVal)

/-- `alpha_composite(top, bottom)` (canvas.py lines 14-54): `o` is the
effective `getattr(top, "opacity", 1.0)` of the top buffer.  Raises
`ValueError` on shape mismatch (lines 15-16); then behaves per shape as
traced in the section comment: broadcast error at the premultiply for
most shapes, elementwise-correct at `(1, 1)`, misaligned factors at
`w = 3, h ∈ {1, 3}`, late `IndexError`/`ValueError` at `w = 1, h > 1`. -/
def alpha_composite (maxVal : Nat) (o : ℚ) (top bottom : Buf) :
    Except String Buf :=
  if bufDims top = bufDims bottom then
    let h := top.length
    let w := top.headI.length
    if (w = 3 ∨ w = 1) ∧ (w = h ∨ w = 1 ∨ h = 1) then
      if h = 1 ∧ w = 1 then
        .ok (List.zipWith (List.zipWith (compositePix maxVal o)) top bottom)
      else if w = 1 then
        if (List.range h).any (fun j =>
            decide (0 < effTopAlpha maxVal o (pixAt top j 0).a
              + (pixAt bottom j 0).a
                * (maxVal - effTopAlpha maxVal o (pixAt top j 0).a)
                / maxVal)) then
          .error "IndexError: boolean index did not match indexed array"
        else
          .error "ValueError: could not broadcast input array"
      else
        .ok ((List.range h).map fun j => (List.range w).map fun i =>
          compositeMisaligned maxVal o top bottom h j i)
    else
      .error "ValueError: operands could not be broadcast together"
  else
    .error "Layer size mismatch"

/-- A buffer all of whose pixels satisfy `p`. -/
def bufAll (p : Pix → Prop) (buf : Buf) : Prop :=
  ∀ row ∈ buf, ∀ px ∈ row, p px

instance (p : Pix → Prop) [DecidablePred p] (buf : Buf) :
    Decidable (bufAll p buf) := by
  unfold bufAll; infer_instance

/-- All channels of a pixel lie in the dtype's range `[0, maxVal]`. -/
def pixLe (maxVal : Nat) (px : Pix) : Prop :=
  px.r ≤ maxVal ∧ px.g ≤ maxVal ∧ px.b ≤ maxVal ∧ px.a ≤ maxVal

instance (maxVal : Nat) (px : Pix) : Decidable (pixLe maxVal px) := by
  unfold pixLe; infer_instance

/-- Solid buffer: `h` rows of `w` copies of one pixel (what `reset` to a
solid colour produces). -/
def solidBuf (h w : Nat) (px : Pix) : Buf :=
  List.replicate h (List.replicate w px)

/-- The per-pixel arithmetic at the `C1` scenario's values: solid red at
raw alpha 255 over opaque black at opacity ½ in 8-bit gives red 127. -/
theorem compositePix_half_red :
    compositePix 255 (2⁻¹) (Pix.mk 255 0 0 255) (Pix.mk 0 0 0 255)
      = Pix.mk 127 0 0 255 := by
  have he : effTopAlpha 255 (2⁻¹) 255 = 127 := by
    rw [effTopAlpha, if_neg (by norm_num)]
    rw [Nat.floor_eq_iff (by positivity)]
    push_cast
    norm_num
  simp only [compositePix]
  rw [he]
  decide

/-- `C1`: at the claim's own 2×2 8-bit scenario (bottom solid
`(0,0,0,255)`, top solid `(255,0,0,255)`, opacity ½) the source raises
a broadcast `ValueError` at the premultiply (canvas.py line 36,
`top_rgb * top_a` with shapes `(2,2,3)` and `(2,2)`) instead of
producing the claimed pixels; the per-pixel arithmetic those lines
attempt — realized only at 1×1 — does give red 127, strictly between
120 and 140, with green = blue = 0, so the claim describes the intent
and the missing `[..., None]` is the bug. -/
theorem alpha_composite_2x2_half_opacity_raises :
    alpha_composite 255 (1/2) (solidBuf 2 2 (Pix.mk 255 0 0 255))
        (solidBuf 2 2 (Pix.mk 0 0 0 255))
      = .error "ValueError: operands could not be broadcast together"
    ∧ compositePix 255 (1/2) (Pix.mk 255 0 0 255) (Pix.mk 0 0 0 255)
        = Pix.mk 127 0 0 255
    ∧ 120 < 127 ∧ 127 < 140 :=
  ⟨rfl, by rw [one_div]; exact compositePix_half_red, by decide, by decide⟩

/-- `C8`: the opaque-top identity fails on the program: already for a
2×2 fully opaque, in-range top over an equally-shaped bottom the source
raises a broadcast `ValueError` at canvas.py line 36 instead of
returning `top`; at 1×1 — the shape where the premultiply broadcast is
elementwise — `over(top, bottom, opacity=1)` does return exactly the
top buffer. -/
theorem alpha_composite_opaque_2x2_raises :
    alpha_composite 255 1 (solidBuf 2 2 (Pix.mk 5 6 7 255))
        (solidBuf 2 2 (Pix.mk 9 9 9 9))
      = .error "ValueError: operands could not be broadcast together"
    ∧ alpha_composite 255 1 [[Pix.mk 1 2 3 255]] [[Pix.mk 9 9 9 9]]
        = .ok [[Pix.mk 1 2 3 255]] :=
  ⟨rfl, rfl⟩

/-! ## Stroke capsule masks (`Painter/layers.py`)

Two implementations compute the boolean mask of a capsule-shaped stroke
segment over the region `[y0:y0+h, x0:x0+w]`: the numba kernel
`_stroke_capsule_mask` (per-pixel loop, explicit branch on the
degenerate segment and on the projection parameter) and the portable
numpy reference `_stroke_capsule_mask_py` (whole-grid arithmetic,
`np.clip` of the projection parameter).  Float arithmetic is modelled
exactly over `ℚ`. -/

/-- The projection parameter
`t = ((px-lx)*dx + (py-ly)*dy) / seg_len2` of pixel `(x0+i, y0+j)`
onto the segment `(lx,ly)-(x,y)` (layers.py line 248 and line 285 —
both implementations compute the same formula). -/
def capT (x0 y0 lx ly x y : Int) (j i : Nat) : ℚ :=
  (((x0 + (i : Int) - lx) * (x - lx) + (y0 + (j : Int) - ly) * (y - ly) : Int) : ℚ)
    / (((x - lx) * (x - lx) + (y - ly) * (y - ly) : Int) : ℚ)

/-- Squared distance from pixel `(x0+i, y0+j)` to the closest segment
point as the numba kernel computes it (layers.py lines 249-261): the
projection parameter is clamped by explicit branches. -/
def capDist2 (x0 y0 lx ly x y : Int) (j i : Nat) : ℚ :=
  ((x0 + (i : Int) : ℚ)
      - (if capT x0 y0 lx ly x y j i < 0 then (lx : ℚ)
         else if 1 < capT x0 y0 lx ly x y j i then (x : ℚ)
         else (lx : ℚ) + capT x0 y0 lx ly x y j i * ((x - lx : Int) : ℚ)))
    * ((x0 + (i : Int) : ℚ)
      - (if capT x0 y0 lx ly x y j i < 0 then (lx : ℚ)
         else if 1 < capT x0 y0 lx ly x y j i then (x : ℚ)
         else (lx : ℚ) + capT x0 y0 lx ly x y j i * ((x - lx : Int) : ℚ)))
  + ((y0 + (j : Int) : ℚ)
      - (if capT x0 y0 lx ly x y j i < 0 then (ly : ℚ)
         else if 1 < capT x0 y0 lx ly x y j i then (y : ℚ)
         else (ly : ℚ) + capT x0 y0 lx ly x y j i * ((y - ly : Int) : ℚ)))
    * ((y0 + (j : Int) : ℚ)
      - (if capT x0 y0 lx ly x y j i < 0 then (ly : ℚ)
         else if 1 < capT x0 y0 lx ly x y j i then (y : ℚ)
         else (ly : ℚ) + capT x0 y0 lx ly x y j i * ((y - ly : Int) : ℚ)))

/-- Squared distance from pixel `(x0+i, y0+j)` to the closest segment
point as the numpy reference computes it (layers.py lines 286-292): the
projection parameter is clamped with `np.clip`. -/
def capDist2Py (x0 y0 lx ly x y : Int) (j i : Nat) : ℚ :=
  ((x0 + (i : Int) : ℚ)
      - ((lx : ℚ)
        + min (max (capT x0 y0 lx ly x y j i) 0) 1 * ((x - lx : Int) : ℚ)))
    * ((x0 + (i : Int) : ℚ)
      - ((lx : ℚ)
        + min (max (capT x0 y0 lx ly x y j i) 0) 1 * ((x - lx : Int) : ℚ)))
  + ((y0 + (j : Int) : ℚ)
      - ((ly : ℚ)
        + min (max (capT x0 y0 lx ly x y j i) 0) 1 * ((y - ly : Int) : ℚ)))
    * ((y0 + (j : Int) : ℚ)
      - ((ly : ℚ)
        + min (max (capT x0 y0 lx ly x y j i) 0) 1 * ((y - ly : Int) : ℚ)))

/-- `Layer._stroke_capsule_mask` (the numba kernel, layers.py
lines 224-264). Row `j`, column `i` of the result corresponds to pixel
`(x0+i, y0+j)`; the degenerate-segment test happens per pixel, inside
the loop. -/
def strokeCapsuleMask (h w : Nat) (x0 y0 lx ly x y r : Int) :
    List (List Bool) :=
  (List.range h).map fun (j : Nat) =>
    (List.range w).map fun (i : Nat) =>
      if (x - lx) * (x - lx) + (y - ly) * (y - ly) = 0 then
        decide ((x0 + (i : Int) - x) * (x0 + (i : Int) - x)
          + (y0 + (j : Int) - y) * (y0 + (j : Int) - y) ≤ r * r)
      else
        decide (capDist2 x0 y0 lx ly x y j i ≤ (r : ℚ) * (r : ℚ))

/-- `Layer._stroke_capsule_mask_py` (portable numpy reference, layers.py
lines 267-292): the degenerate-segment branch is hoisted out of the
grid. -/
def strokeCapsuleMaskPy (h w : Nat) (x0 y0 lx ly x y r : Int) :
    List (List Bool) :=
  if (x - lx) * (x - lx) + (y - ly) * (y - ly) = 0 then
    (List.range h).map fun (j : Nat) =>
      (List.range w).map fun (i : Nat) =>
        decide ((x0 + (i : Int) - x) * (x0 + (i : Int) - x)
          + (y0 + (j : Int) - y) * (y0 + (j : Int) - y) ≤ r * r)
  else
    (List.range h).map fun (j : Nat) =>
      (List.range w).map fun (i : Nat) =>
        decide (capDist2Py x0 y0 lx ly x y j i ≤ (r : ℚ) * (r : ℚ))

/-- Branch-clamping and `np.clip`-clamping give the same closest-point
distance. -/
theorem capDist2_eq_py (x0 y0 lx ly x y : Int) (j i : Nat) :
    capDist2 x0 y0 lx ly x y j i = capDist2Py x0 y0 lx ly x y j i := by
  unfold capDist2 capDist2Py
  set t : ℚ := capT x0 y0 lx ly x y j i with ht
  rcases lt_or_le t 0 with h0 | h0
  · rw [max_eq_right h0.le]
    simp only [if_pos h0]
    norm_num
  · rw [max_eq_left h0]
    simp only [if_neg (not_lt.2 h0)]
    rcases lt_or_le 1 t with h1 | h1
    · rw [min_eq_right h1.le]
      simp only [if_pos h1]
      push_cast
      ring
    · rw [min_eq_left h1]
      simp only [if_neg (not_lt.2 h1)]

/-- `C7`: the accelerated numba kernel and the portable numpy reference
produce identical masks for every capsule-mask input. -/
theorem stroke_capsule_mask_eq_py (h w : Nat) (x0 y0 lx ly x y r : Int) :
    strokeCapsuleMask h w x0 y0 lx ly x y r
      = strokeCapsuleMaskPy h w x0 y0 lx ly x y r := by
  unfold strokeCapsuleMask strokeCapsuleMaskPy
  by_cases hseg : (x - lx) * (x - lx) + (y - ly) * (y - ly) = 0
  · rw [if_pos hseg]
    simp only [if_pos hseg]
  · rw [if_neg hseg]
    simp only [if_neg hseg, capDist2_eq_py]

/-! ## Layers (`Painter/layers.py`, class `Layer`)

A `Layer` owns one `(height, width, 4)` RGBA buffer plus
visibility/opacity/lock state and the stroke bookkeeping
(`_last_pos`, `pixel_points` — a `deque(maxlen=10)` —, and
`_interpolation_alpha`).  `maxVal` stands for `np.iinfo(dtype).max`.
Mutating methods are guarded by the `requires_unlocked` decorator,
which raises `RuntimeError("Layer is locked")` before the body runs;
they are modelled as `Except String` computations. -/

structure Layer where
  width : Nat
  height : Nat
  maxVal : Nat
  data : Buf
  visible : Bool
  locked : Bool
  opacity : ℚ
  lastPos : Option (Int × Int)
  pixelPoints : List (Int × Int)
  interpolationAlpha : Nat
deriving Repr, DecidableEq

/-- The message of the `requires_unlocked` guard (layers.py line 24). -/
def lockedErr : String := "Layer is locked"

/-- `Layer.__init__` (layers.py lines 37-60): buffer filled with
`max_val` in every channel (default white, opaque), unlocked, visible,
opacity 1, no stroke in progress. -/
def Layer.init (width height maxVal : Nat) : Layer :=
  { width := width
    height := height
    maxVal := maxVal
    data := solidBuf height width (Pix.mk maxVal maxVal maxVal maxVal)
    visible := true
    locked := false
    opacity := 1
    lastPos := none
    pixelPoints := []
    interpolationAlpha := maxVal }

/-- Whole-buffer single-channel assignment `data[..., c] = v`. -/
def Pix.setC (px : Pix) (c v : Nat) : Pix :=
  if c = 0 then { px with r := v }
  else if c = 1 then { px with g := v }
  else if c = 2 then { px with b := v }
  else { px with a := v }

def setChannel (buf : Buf) (c v : Nat) : Buf :=
  buf.map (List.map (fun px => px.setC c v))

/-- Whole-buffer assignment `data[..., :3] = v` (used by `resize`). -/
def setRGB (buf : Buf) (v : Nat) : Buf :=
  buf.map (List.map (fun px => { px with r := v, g := v, b := v }))

/-- `Layer.reset` (layers.py lines 180-194): default colour is
`(maxv, maxv, maxv, maxv)`; channels 0..2 are overwritten; channel 3
only when the supplied alpha is not `None`. -/
def Layer.reset (L : Layer) (rgba : Option (Nat × Nat × Nat × Option Nat)) :
    Except String Layer :=
  if L.locked then .error lockedErr else
    let v := rgba.getD (L.maxVal, L.maxVal, L.maxVal, some L.maxVal)
    let d := setChannel (setChannel (setChannel L.data 0 v.1) 1 v.2.1) 2 v.2.2.1
    .ok { L with data := match v.2.2.2 with
                         | some a => setChannel d 3 a
                         | none => d }

/-- `Layer.resize` (layers.py lines 196-206): reallocate as
`np.zeros`, then `data[..., :3] = 255` and `data[..., 3] = max_val`. -/
def Layer.resize (L : Layer) (width height : Nat) : Except String Layer :=
  if L.locked then .error lockedErr else
    .ok { L with
      width := width
      height := height
      data := setChannel (setRGB (solidBuf height width (Pix.mk 0 0 0 0)) 255)
                3 L.maxVal }

/-- `Layer.fill` (layers.py lines 208-217): overwrite all four channels. -/
def Layer.fill (L : Layer) (rgba : Nat × Nat × Nat × Nat) :
    Except String Layer :=
  if L.locked then .error lockedErr else
    .ok { L with
      data := setChannel (setChannel (setChannel (setChannel L.data 0 rgba.1)
        1 rgba.2.1) 2 rgba.2.2.1) 3 rgba.2.2.2 }

/-- `Layer.__setitem__` / `Layer.set_region` with a single-pixel key
(layers.py lines 139-144 and 155-160): `self._data[key] = value`. -/
def Layer.set_region (L : Layer) (i j : Nat) (v : Pix) :
    Except String Layer :=
  if L.locked then .error lockedErr else
    .ok { L with data := L.data.set i ((L.data.getD i []).set j v) }

/-- `Layer.__setitem__` with the full-slice key `[:, :, :]` (used by
`merge_layer_into` and the KSP decoder). -/
def Layer.set_full (L : Layer) (buf : Buf) : Except String Layer :=
  if L.locked then .error lockedErr else
    .ok { L with data := buf }

/-- The `dtype` setter (layers.py lines 80-87): store the new dtype and
`astype` the buffer, which wraps every channel modulo the new dtype's
modulus (`newMax + 1`). -/
def Layer.set_dtype (L : Layer) (newMax : Nat) : Except String Layer :=
  if L.locked then .error lockedErr else
    .ok { L with
      maxVal := newMax
      data := L.data.map (List.map (fun px =>
        Pix.mk (px.r % (newMax + 1)) (px.g % (newMax + 1))
          (px.b % (newMax + 1)) (px.a % (newMax + 1)))) }

/-- `Layer.unlocked()` context manager (layers.py lines 118-129): run
`f` with `locked` forced to `false`, then restore the old flag (also on
error, via `finally`; an error propagates unchanged). -/
def Layer.withUnlocked (L : Layer) (f : Layer → Except String Layer) :
    Except String Layer :=
  (f { L with locked := false }).map fun L2 => { L2 with locked := L.locked }

/-- The unguarded `visible` setter (layers.py lines 93-95). -/
def Layer.set_visible (L : Layer) (v : Bool) : Layer :=
  { L with visible := v }

/-- The unguarded `opacity` setter (layers.py lines 101-106),
`np.clip`ped into `[0, 1]`. -/
def Layer.set_opacity (L : Layer) (v : ℚ) : Layer :=
  { L with opacity := min (max v 0) 1 }

/-- The unguarded `locked` setter (layers.py lines 112-114). -/
def Layer.set_locked (L : Layer) (v : Bool) : Layer :=
  { L with locked := v }

/-- `Layer.reset_stroke` (layers.py lines 443-444):
`self.pixel_points.clear()`. -/
def Layer.reset_stroke (L : Layer) : Layer :=
  { L with pixelPoints := [] }

/-- The `last_pos` setter (layers.py lines 450-455): stores the point,
or `None` for any non-point argument. -/
def Layer.set_last_pos (L : Layer) (pos : Option (Int × Int)) : Layer :=
  match pos with
  | some p => { L with lastPos := some p }
  | none => { L with lastPos := none }

/-- The `interpolation_alpha` setter (layers.py lines 461-465),
`np.clip`ped into `[0, max_val]`. -/
def Layer.set_interp_alpha (L : Layer) (v : Nat) : Layer :=
  { L with interpolationAlpha := min v L.maxVal }

/-! ### Brush drawing (`Painter/layers.py` lines 296-441) -/

/-- Overwrite with `color` every pixel (global coordinates `(i, j)`)
satisfying `p` — the `region[mask, c] = color_c` writes, which replace
all four channels of each masked pixel. -/
def writePred (buf : Buf) (p : Int → Int → Bool)
    (color : Nat × Nat × Nat × Nat) : Buf :=
  buf.mapIdx fun j row => row.mapIdx fun i px =>
    if p (i : Int) (j : Int) then Pix.mk color.1 color.2.1 color.2.2.1 color.2.2.2
    else px

/-- The first-point branch of `draw_brush` (layers.py lines 307-338):
stamp a filled disk of radius `size // 2` at `(x, y)`, clipped to the
buffer, and set `last_pos`.  Returns the touched bounding box. -/
def Layer.stampDisk (L : Layer) (x y : Int) (size : Nat)
    (color : Nat × Nat × Nat × Nat) : Layer × (Int × Int × Int × Int) :=
  let h : Int := L.data.length
  let w : Int := L.data.headI.length
  let r : Int := (size : Int) / 2
  let x0 := max (x - r) 0
  let y0 := max (y - r) 0
  let x1 := min (x + r + 1) w
  let y1 := min (y + r + 1) h
  if y1 - y0 ≤ 0 ∨ x1 - x0 ≤ 0 then
    ({ L with lastPos := some (x, y) }, (x0, y0, x1, y1))
  else
    let d := writePred L.data
      (fun i j => decide (x0 ≤ i ∧ i < x1 ∧ y0 ≤ j ∧ j < y1
        ∧ (i - x) * (i - x) + (j - y) * (j - y) ≤ r * r)) color
    ({ L with data := d, lastPos := some (x, y) }, (x0, y0, x1, y1))

/-- The capsule branch of `draw_brush` (layers.py lines 340-372):
rasterize the capsule from `last_pos = (lx, ly)` to `(x, y)` inside the
clipped bounding box, using the capsule mask, and set `last_pos`.
(`stroke_capsule_mask_eq_py` shows the numba and numpy masks agree, so
the portable mask is used here.) -/
def Layer.stampCapsule (L : Layer) (lx ly x y : Int) (size : Nat)
    (color : Nat × Nat × Nat × Nat) : Layer × (Int × Int × Int × Int) :=
  let h : Int := L.data.length
  let w : Int := L.data.headI.length
  let r : Int := (size : Int) / 2
  let x0 := max (min lx x - r) 0
  let y0 := max (min ly y - r) 0
  let x1 := min (max lx x + r + 1) w
  let y1 := min (max ly y + r + 1) h
  if y1 - y0 ≤ 0 ∨ x1 - x0 ≤ 0 then
    ({ L with lastPos := some (x, y) }, (x0, y0, x1, y1))
  else
    let mask := strokeCapsuleMaskPy (y1 - y0).toNat (x1 - x0).toNat
      x0 y0 lx ly x y r
    let d := writePred L.data
      (fun i j => decide (x0 ≤ i ∧ i < x1 ∧ y0 ≤ j ∧ j < y1)
        && (mask.getD (j - y0).toNat []).getD (i - x0).toNat false) color
    ({ L with data := d, lastPos := some (x, y) }, (x0, y0, x1, y1))

/-- `Layer.draw_brush` (layers.py lines 296-372): guarded by
`requires_unlocked`; a fresh disk when no stroke is in progress, a
capsule from `last_pos` otherwise. -/
def Layer.draw_brush (L : Layer) (x y : Int) (size : Nat)
    (color : Nat × Nat × Nat × Nat) :
    Except String (Layer × (Int × Int × Int × Int)) :=
  if L.locked then .error lockedErr else
    match L.lastPos with
    | none => .ok (L.stampDisk x y size color)
    | some (lx, ly) => .ok (L.stampCapsule lx ly x y size color)

/-- `Layer.draw_brush_slow` (layers.py lines 376-401): an unconditional
disk stamp that neither reads nor updates `last_pos`. -/
def Layer.draw_brush_slow (L : Layer) (x y : Int) (size : Nat)
    (color : Nat × Nat × Nat × Nat) : Except String Layer :=
  if L.locked then .error lockedErr else
    let h : Int := L.data.length
    let w : Int := L.data.headI.length
    let r : Int := (size : Int) / 2
    let x0 := max (x - r) 0
    let y0 := max (y - r) 0
    let x1 := min (x + r + 1) w
    let y1 := min (y + r + 1) h
    if y1 - y0 ≤ 0 ∨ x1 - x0 ≤ 0 then .ok L
    else
      let d := writePred L.data
        (fun i j => decide (x0 ≤ i ∧ i < x1 ∧ y0 ≤ j ∧ j < y1
          ∧ (i - x) * (i - x) + (j - y) * (j - y) ≤ r * r)) color
      .ok { L with data := d }

/-! ### Spline brush (`Painter/layers.py` lines 403-476) -/

/-- Python `int(...)` applied to a float: truncation toward zero. -/
def truncQ (q : ℚ) : Int :=
  if 0 ≤ q then ⌊q⌋ else -⌊-q⌋

/-- `np.round`: round half to even. -/
def nround (q : ℚ) : Int :=
  if q - ⌊q⌋ < 1/2 then ⌊q⌋
  else if 1/2 < q - ⌊q⌋ then ⌊q⌋ + 1
  else if 2 ∣ ⌊q⌋ then ⌊q⌋ else ⌊q⌋ + 1

/-- `np.linspace(0, 1, n)`: `n` evenly spaced samples of `[0, 1]`
(endpoint included); `[0]` when `n = 1`, empty when `n = 0`. -/
def linspace01 (n : Nat) : List ℚ :=
  if n ≤ 1 then List.replicate n 0
  else (List.range n).map fun k => (k : ℚ) / ((n : ℚ) - 1)

/-- One coordinate of the Catmull-Rom cubic through `p0..p3` at
parameter `t` (layers.py lines 427-430). -/
def catmull (p0 p1 p2 p3 : Int) (t : ℚ) : ℚ :=
  (2 * (p1 : ℚ) + (-(p0 : ℚ) + p2) * t
    + (2 * (p0 : ℚ) - 5 * p1 + 4 * p2 - p3) * (t * t)
    + (-(p0 : ℚ) + 3 * p1 - 3 * p2 + p3) * (t * t * t)) / 2

/-- `deque(maxlen=10).append`: drop the oldest point when full. -/
def dequeAppend (pts : List (Int × Int)) (p : Int × Int) :
    List (Int × Int) :=
  if pts.length < 10 then pts ++ [p] else pts.tail ++ [p]

/-- `Layer._smoothed_point` (layers.py lines 467-476): pull `(x, y)`
toward the last recorded point by `interpolation_alpha / max_val`. -/
def Layer.smoothed_point (L : Layer) (x y : Int) : Int × Int :=
  match L.pixelPoints.getLast? with
  | none => (x, y)
  | some (lx, ly) =>
    let al : ℚ := (L.interpolationAlpha : ℚ) / (L.maxVal : ℚ)
    (truncQ ((lx : ℚ) + al * ((x - lx : Int) : ℚ)),
     truncQ ((ly : ℚ) + al * ((y - ly : Int) : ℚ)))

/-- `Layer.draw_spline_brush` (layers.py lines 403-441): smooth the
point, append it to `pixel_points`; once 4 points are buffered, sample
the Catmull-Rom segment through the last four points and `draw_brush`
at each sample whose Manhattan distance from the previously drawn
sample is at least `max(1, size // 4)`. -/
def Layer.draw_spline_brush (L : Layer) (x y : Int) (size : Nat)
    (color : Nat × Nat × Nat × Nat) : Except String Layer :=
  if L.locked then .error lockedErr else
    let sp := L.smoothed_point x y
    let pts := dequeAppend L.pixelPoints sp
    let L1 : Layer := { L with pixelPoints := pts }
    if pts.length < 4 then .ok L1
    else
      let p0 := pts.getD (pts.length - 4) (0, 0)
      let p1 := pts.getD (pts.length - 3) (0, 0)
      let p2 := pts.getD (pts.length - 2) (0, 0)
      let p3 := pts.getD (pts.length - 1) (0, 0)
      let dist : Nat := max (max (p2.1 - p1.1).natAbs (p2.2 - p1.2).natAbs) 1
      let steps : Nat := min dist 200
      let samples := (linspace01 steps).map fun t =>
        (nround (catmull p0.1 p1.1 p2.1 p3.1 t),
         nround (catmull p0.2 p1.2 p2.2 p3.2 t))
      (samples.foldlM (fun (acc : Layer × Option (Int × Int)) pt =>
          let draw : Bool := match acc.2 with
            | none => true
            | some (dx, dy) =>
              decide (max 1 (size / 4) ≤ (pt.1 - dx).natAbs + (pt.2 - dy).natAbs)
          if draw then
            (acc.1.draw_brush pt.1 pt.2 size color).map fun res =>
              (res.1, some pt)
          else pure acc)
        (L1, none)).map Prod.fst

/-- The end-of-stroke action (old_main.py `mouseReleaseEvent`, lines
342-345): clear `pixel_points` (via `reset_stroke`) and set `last_pos`
to `None` (via the `last_pos` setter, through
`Canvas.set_active_last_pos`). -/
def Layer.end_stroke (L : Layer) : Layer :=
  (L.reset_stroke).set_last_pos none

/-! ### Layer theorems -/

/-- Pixel lookup in a buffer: row `i`, column `j`. -/
def getPix (buf : Buf) (i j : Nat) : Option Pix :=
  buf[i]?.bind fun row => row[j]?

theorem getPix_setChannel (buf : Buf) (c v i j : Nat) :
    getPix (setChannel buf c v) i j
      = (getPix buf i j).map (fun px => px.setC c v) := by
  simp only [getPix, setChannel, List.getElem?_map]
  cases buf[i]? with
  | none => rfl
  | some row => simp [List.getElem?_map]

/-- `C2` (amended): every pixel-buffer-mutating operation of a locked
layer — `reset`, `resize`, `fill`, region/item writes, the `dtype`
setter, `draw_brush`, `draw_brush_slow`, `draw_spline_brush` — raises
`LockedError` from its `requires_unlocked` guard before touching any
state, so the layer's buffer is left byte-identical.  (The `visible`,
`opacity`, `locked`, `last_pos` and `interpolation_alpha` setters and
`reset_stroke` are not guarded; see the counterexample.) -/
theorem locked_layer_mutators_error (L : Layer) (hl : L.locked = true) :
    (∀ rgba, L.reset rgba = .error lockedErr)
    ∧ (∀ w h, L.resize w h = .error lockedErr)
    ∧ (∀ rgba, L.fill rgba = .error lockedErr)
    ∧ (∀ i j v, L.set_region i j v = .error lockedErr)
    ∧ (∀ buf, L.set_full buf = .error lockedErr)
    ∧ (∀ m, L.set_dtype m = .error lockedErr)
    ∧ (∀ x y s c, L.draw_brush x y s c = .error lockedErr)
    ∧ (∀ x y s c, L.draw_brush_slow x y s c = .error lockedErr)
    ∧ (∀ x y s c, L.draw_spline_brush x y s c = .error lockedErr) := by
  refine ⟨?_, ?_, ?_, ?_, ?_, ?_, ?_, ?_, ?_⟩ <;> intros <;>
    simp [Layer.reset, Layer.resize, Layer.fill, Layer.set_region,
      Layer.set_full, Layer.set_dtype, Layer.draw_brush,
      Layer.draw_brush_slow, Layer.draw_spline_brush, hl]

/-- `C2` witness at a concrete locked layer and concrete arguments. -/
theorem locked_layer_mutators_error_witness :
    (Layer.set_locked (Layer.init 1 1 255) true).locked = true
    ∧ (Layer.set_locked (Layer.init 1 1 255) true).reset none
        = .error lockedErr
    ∧ (Layer.set_locked (Layer.init 1 1 255) true).draw_brush 0 0 3 (1, 2, 3, 4)
        = .error lockedErr :=
  ⟨rfl,
   (locked_layer_mutators_error (Layer.set_locked (Layer.init 1 1 255) true)
     rfl).1 none,
   (locked_layer_mutators_error (Layer.set_locked (Layer.init 1 1 255) true)
     rfl).2.2.2.2.2.2.1 0 0 3 (1, 2, 3, 4)⟩

/-- `C2` counterexample to the claim as stated: the `visible` setter is
a state mutation of a locked layer that does not raise — it succeeds
and changes the layer's visibility. -/
theorem locked_layer_visible_setter_mutates :
    (Layer.set_visible (Layer.set_locked (Layer.init 1 1 255) true)
        false).visible = false
    ∧ (Layer.set_locked (Layer.init 1 1 255) true).visible = true
    ∧ (Layer.set_locked (Layer.init 1 1 255) true).locked = true :=
  ⟨rfl, rfl, rfl⟩

/-- `C4`: `resize` on an unlocked 16-bit layer (`channelMax = 65535`)
produces a buffer whose colour channels are the hard-coded `255`, not
`channelMax`, while alpha is `channelMax` — the "opaque white" intent
only holds at 8-bit depth. -/
theorem resize_uint16_rgb_is_255_not_channelMax :
    ∃ L2, (Layer.init 4 4 65535).resize 2 2 = .ok L2
      ∧ L2.data = solidBuf 2 2 (Pix.mk 255 255 255 65535)
      ∧ (255 : Nat) ≠ 65535 :=
  ⟨_, rfl, by decide, by decide⟩

/-- `C5`: `reset` with the alpha component omitted (`None`) overwrites
R, G, B of every pixel with the given colour and leaves each pixel's
alpha unchanged. -/
theorem reset_alpha_omitted_preserves_alpha (L : Layer) (r g b : Nat)
    (hl : L.locked = false) :
    ∃ L2, L.reset (some (r, g, b, none)) = .ok L2 ∧
      ∀ i j px, getPix L.data i j = some px →
        getPix L2.data i j = some (Pix.mk r g b px.a) := by
  refine ⟨{ L with
    data := setChannel (setChannel (setChannel L.data 0 r) 1 g) 2 b },
    by simp [Layer.reset, hl], ?_⟩
  intro i j px h
  simp only [getPix_setChannel, h, Option.map_some]
  cases px
  simp [Pix.setC]

/-- `C5` witness at a concrete 1×1 unlocked layer. -/
theorem reset_alpha_omitted_preserves_alpha_witness :
    (Layer.set_interp_alpha (Layer.init 1 1 255) 7).locked = false
    ∧ ∃ L2, (Layer.set_interp_alpha (Layer.init 1 1 255) 7).reset
          (some (9, 8, 7, none)) = .ok L2 ∧
        ∀ i j px,
          getPix (Layer.set_interp_alpha (Layer.init 1 1 255) 7).data i j
            = some px →
          getPix L2.data i j = some (Pix.mk 9 8 7 px.a) :=
  ⟨rfl, reset_alpha_omitted_preserves_alpha _ 9 8 7 rfl⟩

/-- `C6`: the end-of-stroke action clears `pixel_points`, sets
`last_pos` to `None`, and therefore the next `draw_brush` on the layer
takes the fresh-disk branch (`stampDisk`), not the capsule branch. -/
theorem end_stroke_clears_and_next_brush_is_disk (L : Layer)
    (x y : Int) (size : Nat) (color : Nat × Nat × Nat × Nat)
    (hl : L.locked = false) :
    (L.end_stroke).pixelPoints = []
    ∧ (L.end_stroke).lastPos = none
    ∧ (L.end_stroke).draw_brush x y size color
        = .ok ((L.end_stroke).stampDisk x y size color) := by
  refine ⟨rfl, rfl, ?_⟩
  simp [Layer.draw_brush, Layer.end_stroke, Layer.reset_stroke,
    Layer.set_last_pos, hl]

/-- `C6` witness: a layer mid-stroke (non-empty `pixel_points`, a
`last_pos`), ended and then drawn on. -/
theorem end_stroke_clears_witness :
    (Layer.set_last_pos (Layer.init 3 3 255) (some (1, 1))).locked = false
    ∧ ((Layer.set_last_pos (Layer.init 3 3 255) (some (1, 1))).end_stroke.pixelPoints = []
      ∧ (Layer.set_last_pos (Layer.init 3 3 255) (some (1, 1))).end_stroke.lastPos = none
      ∧ (Layer.set_last_pos (Layer.init 3 3 255) (some (1, 1))).end_stroke.draw_brush 1 1 2 (5, 5, 5, 255)
          = .ok ((Layer.set_last_pos (Layer.init 3 3 255) (some (1, 1))).end_stroke.stampDisk 1 1 2 (5, 5, 5, 255))) :=
  ⟨rfl, end_stroke_clears_and_next_brush_is_disk _ 1 1 2 (5, 5, 5, 255) rfl⟩

/-! ## Layer stack (`Painter/canvas.py`, class `Canvas`)

`Canvas` holds the ordered layer list (bottom→top) and the optional
active index.  Python's signed layer indices are modelled as `Int`; the
source's bounds checks (`0 <= index < len`) reject negatives, and its
clamps use `max`/`min` exactly as written. -/

structure Canvas where
  width : Nat
  height : Nat
  maxVal : Nat
  layers : List Layer
  active : Option Nat
deriving DecidableEq

/-- `Canvas.__init__` (canvas.py lines 97-104): empty stack, no active
layer.  `maxVal` stands for the canvas dtype's `np.iinfo(...).max`. -/
def Canvas.init (width height maxVal : Nat) : Canvas :=
  { width := width, height := height, maxVal := maxVal, layers := [], active := none }

/-- `Canvas.add_layer` (canvas.py lines 138-146): append (a default
layer when none is given) and make it active. -/
def Canvas.add_layer (c : Canvas) (l : Option Layer) : Canvas × Layer :=
  let layer := l.getD (Layer.init c.width c.height c.maxVal)
  ({ c with layers := c.layers ++ [layer], active := some c.layers.length },
   layer)

/-- `Canvas.insert_layer` (canvas.py lines 148-156): clamp the index
into `[0, len]`, insert a fresh default layer there, make it active. -/
def Canvas.insert_layer (c : Canvas) (index : Int) : Canvas × Layer :=
  let idx : Nat := (max 0 (min index (c.layers.length : Int))).toNat
  let layer := Layer.init c.width c.height c.maxVal
  ({ c with layers := c.layers.insertIdx idx layer, active := some idx },
   layer)

/-- `Canvas.remove_layer` (canvas.py lines 158-168): `IndexError` when
out of range; afterwards the active index is `None` on an empty stack,
else `min(index, len-1)` against the new length. -/
def Canvas.remove_layer (c : Canvas) (index : Int) : Except String Canvas :=
  if 0 ≤ index ∧ index < (c.layers.length : Int) then
    let ls := c.layers.eraseIdx index.toNat
    .ok { c with
      layers := ls
      active := if ls.isEmpty then none
                else some (min index.toNat (ls.length - 1)) }
  else .error "Layer index out of range"

/-- `Canvas.move_layer` (canvas.py lines 170-184): `IndexError` when
`from_index` is out of range; `to_index` is clamped into `[0, len-1]`;
the active index follows the moved layer when it was the moved one. -/
def Canvas.move_layer (c : Canvas) (fromIndex toIndex : Int) :
    Except String Canvas :=
  let n := c.layers.length
  if 0 ≤ fromIndex ∧ fromIndex < (n : Int) then
    let f := fromIndex.toNat
    let t : Nat := (max 0 (min toIndex ((n : Int) - 1))).toNat
    let layer := c.layers.getD f (Layer.init c.width c.height c.maxVal)
    let ls := (c.layers.eraseIdx f).insertIdx t layer
    .ok { c with
      layers := ls
      active := match c.active with
                | some a => if (a : Int) = fromIndex then some t else some a
                | none => none }
  else .error "from_index out of range"

/-- `Canvas.select_layer` (canvas.py lines 186-192). -/
def Canvas.select_layer (c : Canvas) (index : Int) : Except String Canvas :=
  if 0 ≤ index ∧ index < (c.layers.length : Int) then
    .ok { c with active := some index.toNat }
  else .error "Layer index out of range"

/-- The canvas after a fallible operation: Python state is unchanged
when the call raises before mutating. -/
def afterOp (r : Except String Canvas) (c : Canvas) : Canvas :=
  match r with
  | .ok c2 => c2
  | .error _ => c

/-- The active-index invariant: `None` exactly on an empty stack,
otherwise a valid index. -/
def activeInv (c : Canvas) : Prop :=
  (c.active = none ∧ c.layers = [])
  ∨ (∃ i, c.active = some i ∧ i < c.layers.length)

/-- Boolean test for `activeInv`. -/
def activeOk (c : Canvas) : Bool :=
  match c.active with
  | none => c.layers.isEmpty
  | some i => decide (i < c.layers.length)

theorem activeInv_iff (c : Canvas) : activeInv c ↔ activeOk c = true := by
  cases h : c.active <;>
    simp [activeInv, activeOk, h, List.isEmpty_iff]

instance (c : Canvas) : Decidable (activeInv c) :=
  decidable_of_iff _ (activeInv_iff c).symm

/-- `C9`: starting from a stack whose active index is `None` (empty
stack) or valid, any single `add_layer`, `insert_layer`,
`remove_layer` or `move_layer` — whether it succeeds or raises —
leaves the active index `None` iff the stack is empty and a valid
index otherwise. -/
theorem stack_ops_preserve_active_inv (c : Canvas) (l : Option Layer)
    (insIdx remIdx fromIdx toIdx : Int) (hinv : activeInv c) :
    activeInv (c.add_layer l).1
    ∧ activeInv (c.insert_layer insIdx).1
    ∧ activeInv (afterOp (c.remove_layer remIdx) c)
    ∧ activeInv (afterOp (c.move_layer fromIdx toIdx) c) := by
  refine ⟨?_, ?_, ?_, ?_⟩
  · exact Or.inr ⟨c.layers.length, rfl, by simp [Canvas.add_layer]⟩
  · refine Or.inr ⟨(max 0 (min insIdx (c.layers.length : Int))).toNat, rfl, ?_⟩
    show _ < (c.layers.insertIdx _ _).length
    rw [List.length_insertIdx _ _ (by omega)]
    omega
  · unfold Canvas.remove_layer
    by_cases h : 0 ≤ remIdx ∧ remIdx < (c.layers.length : Int)
    · rw [if_pos h]
      have hlen : (c.layers.eraseIdx remIdx.toNat).length
          = c.layers.length - 1 := by
        rw [List.length_eraseIdx, if_pos (by omega)]
      by_cases he : (c.layers.eraseIdx remIdx.toNat).isEmpty
      · exact Or.inl ⟨by simp [afterOp, he],
          by simpa [afterOp, List.isEmpty_iff] using he⟩
      · refine Or.inr ⟨min remIdx.toNat
          ((c.layers.eraseIdx remIdx.toNat).length - 1),
          by simp [afterOp, he], ?_⟩
        have hne : (c.layers.eraseIdx remIdx.toNat).length ≠ 0 := by
          simpa [List.isEmpty_iff, List.length_eq_zero] using he
        simp only [afterOp]
        omega
    · rw [if_neg h]
      exact hinv
  · unfold Canvas.move_layer
    by_cases h : 0 ≤ fromIdx ∧ fromIdx < (c.layers.length : Int)
    · rw [if_pos h]
      simp only [afterOp]
      have hlen : ((c.layers.eraseIdx fromIdx.toNat).insertIdx
          (max 0 (min toIdx ((c.layers.length : Int) - 1))).toNat
          (c.layers.getD fromIdx.toNat
            (Layer.init c.width c.height c.maxVal))).length
          = c.layers.length := by
        have h1 : (c.layers.eraseIdx fromIdx.toNat).length
            = c.layers.length - 1 := by
          rw [List.length_eraseIdx, if_pos (by omega)]
        rw [List.length_insertIdx _ _ (by omega)]
        omega
      rcases hinv with ⟨ha, hl⟩ | ⟨i, ha, hi⟩
      · exfalso
        rw [hl] at h
        simp at h
        omega
      · simp only [ha]
        by_cases hf : (i : Int) = fromIdx
        · rw [if_pos hf]
          exact Or.inr ⟨_, rfl, by rw [hlen]; omega⟩
        · rw [if_neg hf]
          exact Or.inr ⟨i, rfl, by rw [hlen]; omega⟩
    · rw [if_neg h]
      exact hinv

/-- `C9` witness: the four operations applied to a concrete
one-layer stack. -/
theorem stack_ops_preserve_active_inv_witness :
    activeInv ((Canvas.init 2 2 255).add_layer none).1
    ∧ (activeInv (((Canvas.init 2 2 255).add_layer none).1.add_layer none).1
      ∧ activeInv (((Canvas.init 2 2 255).add_layer none).1.insert_layer 0).1
      ∧ activeInv (afterOp (((Canvas.init 2 2 255).add_layer none).1.remove_layer 0)
          ((Canvas.init 2 2 255).add_layer none).1)
      ∧ activeInv (afterOp (((Canvas.init 2 2 255).add_layer none).1.move_layer 0 1)
          ((Canvas.init 2 2 255).add_layer none).1)) :=
  ⟨by decide,
   stack_ops_preserve_active_inv ((Canvas.init 2 2 255).add_layer none).1
     none 0 0 0 1 (by decide)⟩

/-! ## KSP binary codec (`Painter/formats/ksp.py`)

`write_ksp` packs a `<4sIIBBBH` header (magic `b"KSP1"`, width,
height, channels = 4, dtype code = 2, compression flag, layer count)
followed by the concatenation of every layer's raw uint16-RGBA bytes,
zlib-compressed.  `read_ksp` unpacks the header sequentially, optionally
decompresses, slices the payload into `w*h*4*2`-byte chunks and rebuilds
the layer stack in order.  Bytes are `Nat`s below 256; multi-byte fields
are little-endian.  zlib itself is external to the repository, so the
codec is parametrised by a compression/decompression pair; zlib's
contract is the hypothesis `decomp (comp bs) = bs`. -/

/-- A little-endian `uint16`, as `tobytes` lays it out. -/
def u16le (v : Nat) : List Nat := [v % 256, v / 256 % 256]

/-- One pixel's `tobytes` image: R, G, B, A as little-endian `uint16`. -/
def pixBytes (px : Pix) : List Nat :=
  u16le px.r ++ u16le px.g ++ u16le px.b ++ u16le px.a

def rowBytes (row : List Pix) : List Nat := (row.map pixBytes).flatten

/-- `layer.pixels.astype(np.uint16).tobytes()`: row-major bytes of the
whole buffer. -/
def layerBytes (buf : Buf) : List Nat := (buf.map rowBytes).flatten

/-- `payload = b"".join(layers_data)` (ksp.py lines 18-24). -/
def kspPayload (layers : List Layer) : List Nat :=
  (layers.map fun L => layerBytes L.data).flatten

/-- `struct.pack("<4sIIBBBH", b"KSP1", width, height, 4, 2,
compression, num_layers)` (ksp.py lines 28-37), one byte per entry. -/
def kspHeader (w h compression n : Nat) : List Nat :=
  [75, 83, 80, 49,
   w % 256, w / 256 % 256, w / 65536 % 256, w / 16777216 % 256,
   h % 256, h / 256 % 256, h / 65536 % 256, h / 16777216 % 256,
   4, 2, compression,
   n % 256, n / 256 % 256]

/-- `SimpleFile` (simple_file.py): document wrapper owning a `Canvas`
(dtype uint16, so `maxVal = 65535`); `width`, `height` and `layers`
delegate to the canvas. -/
structure SimpleFile where
  canvas : Canvas
deriving DecidableEq

def SimpleFile.width (sf : SimpleFile) : Nat := sf.canvas.width

def SimpleFile.height (sf : SimpleFile) : Nat := sf.canvas.height

def SimpleFile.layers (sf : SimpleFile) : List Layer := sf.canvas.layers

/-- `SimpleFile.__init__` (simple_file.py lines 18-27): a fresh uint16
canvas with no layers. -/
def SimpleFile.init (width height : Nat) : SimpleFile :=
  ⟨Canvas.init width height 65535⟩

/-- `write_ksp` (ksp.py lines 10-41) generalized over the compression
routine `comp` and the header flag; the source always passes
`flag = true` (`compression = 1`).  ` struct.pack` raises when a field
exceeds its width (`I`: 32 bits, `H`: 16 bits). -/
def write_ksp_flag (comp : List Nat → List Nat) (flag : Bool)
    (sf : SimpleFile) : Except String (List Nat) :=
  if sf.width < 2 ^ 32 ∧ sf.height < 2 ^ 32 ∧ sf.layers.length < 2 ^ 16 then
    .ok (kspHeader sf.width sf.height (if flag then 1 else 0)
          sf.layers.length
      ++ (if flag then comp (kspPayload sf.layers) else kspPayload sf.layers))
  else .error "argument out of range"

/-- `write_ksp` as in the source: `compression = 1`, payload always
`zlib.compress`ed (ksp.py lines 25-26). -/
def write_ksp (comp : List Nat → List Nat) (sf : SimpleFile) :
    Except String (List Nat) :=
  write_ksp_flag comp true sf

/-- `np.frombuffer(..., dtype=np.uint16)` over RGBA pixels: consume
eight bytes (four little-endian `uint16`s) per pixel, `n` pixels. -/
def parsePixList : Nat → List Nat → List Pix
  | 0, _ => []
  | n + 1, b0 :: b1 :: b2 :: b3 :: b4 :: b5 :: b6 :: b7 :: rest =>
    Pix.mk (b0 + 256 * b1) (b2 + 256 * b3) (b4 + 256 * b5) (b6 + 256 * b7)
      :: parsePixList n rest
  | _ + 1, _ => []

/-- `.reshape(h, w, 4)` of a layer chunk: `h` rows of `w` pixels. -/
def parseRows (w : Nat) : Nat → List Nat → Buf
  | 0, _ => []
  | hh + 1, bs => parsePixList w bs :: parseRows w hh (bs.drop (8 * w))

/-- The decode loop (ksp.py lines 69-77): the `i`-th layer is the slice
`payload[i*layer_size : (i+1)*layer_size]`, reinterpreted and reshaped;
`frombuffer`/`reshape` raise on a short slice. -/
def readLayers (w h : Nat) : Nat → List Nat → Except String (List Buf)
  | 0, _ => .ok []
  | n + 1, bs =>
    if w * h * 4 * 2 ≤ bs.length then do
      let rest ← readLayers w h n (bs.drop (w * h * 4 * 2))
      .ok (parseRows w h (bs.take (w * h * 4 * 2)) :: rest)
    else .error "cannot reshape"

/-- `read_ksp` (ksp.py lines 44-79): unpack the 17-byte header
sequentially, validate magic and pixel format, decompress when the flag
is non-zero, slice the payload into layers, rebuild each layer through
its `unlocked()` write path, and assemble a fresh document (the fresh
document's layer list is cleared and the decoded layers appended in
bottom-to-top order). -/
def read_ksp (decomp : List Nat → List Nat) (bytes : List Nat) :
    Except String SimpleFile :=
  match bytes with
  | m0 :: m1 :: m2 :: m3 :: w0 :: w1 :: w2 :: w3 :: h0 :: h1 :: h2 :: h3
      :: c :: dt :: compression :: n0 :: n1 :: payload =>
    if [m0, m1, m2, m3] ≠ [75, 83, 80, 49] then .error "Invalid KSP file"
    else if c ≠ 4 ∨ dt ≠ 2 then .error "Unsupported KSP pixel format"
    else
      let w := w0 + 256 * w1 + 65536 * w2 + 16777216 * w3
      let h := h0 + 256 * h1 + 65536 * h2 + 16777216 * h3
      let numLayers := n0 + 256 * n1
      let payload2 := if compression ≠ 0 then decomp payload else payload
      do
        let bufs ← readLayers w h numLayers payload2
        let layers ← bufs.mapM fun buf =>
          (Layer.init w h 65535).withUnlocked fun l2 => l2.set_full buf
        .ok ⟨layers.foldl (fun cv l2 => (cv.add_layer (some l2)).1)
          { Canvas.init w h 65535 with layers := [] }⟩
  | _ => .error "unpack requires a buffer of 17 bytes"

/-! ### Codec round-trip lemmas -/

/-- A buffer of `h` rows of `w` pixels. -/
def bufSized (h w : Nat) (buf : Buf) : Prop :=
  buf.length = h ∧ ∀ row ∈ buf, row.length = w

instance (h w : Nat) (buf : Buf) : Decidable (bufSized h w buf) := by
  unfold bufSized; infer_instance

theorem rowBytes_length (row : List Pix) :
    (rowBytes row).length = 8 * row.length := by
  induction row with
  | nil => rfl
  | cons p r ih =>
    show (pixBytes p ++ rowBytes r).length = 8 * (r.length + 1)
    rw [List.length_append, ih]
    have h8 : (pixBytes p).length = 8 := rfl
    omega

theorem layerBytes_length (buf : Buf) (w : Nat)
    (hw : ∀ row ∈ buf, row.length = w) :
    (layerBytes buf).length = buf.length * (8 * w) := by
  induction buf with
  | nil => simp [layerBytes]
  | cons row rest ih =>
    show (rowBytes row ++ layerBytes rest).length = (row :: rest).length * (8 * w)
    rw [List.length_append, rowBytes_length, hw row (by simp),
      ih (fun r hr => hw r (by simp [hr]))]
    simp [List.length_cons]
    ring

theorem parsePixList_rowBytes :
    ∀ (row : List Pix) (rest : List Nat),
      (∀ px ∈ row, pixLe 65535 px) →
      parsePixList row.length (rowBytes row ++ rest) = row := by
  intro row
  induction row with
  | nil => intro rest _; rfl
  | cons p r ih =>
    intro rest hpx
    obtain ⟨pr, pg, pb, pa⟩ := p
    obtain ⟨h0, h1, h2, h3⟩ :
        pr ≤ 65535 ∧ pg ≤ 65535 ∧ pb ≤ 65535 ∧ pa ≤ 65535 :=
      hpx ⟨pr, pg, pb, pa⟩ (by simp)
    show parsePixList (r.length + 1)
      (pr % 256 :: pr / 256 % 256 :: pg % 256 :: pg / 256 % 256
        :: pb % 256 :: pb / 256 % 256 :: pa % 256 :: pa / 256 % 256
        :: (rowBytes r ++ rest)) = Pix.mk pr pg pb pa :: r
    simp only [parsePixList]
    rw [show pr % 256 + 256 * (pr / 256 % 256) = pr by omega,
      show pg % 256 + 256 * (pg / 256 % 256) = pg by omega,
      show pb % 256 + 256 * (pb / 256 % 256) = pb by omega,
      show pa % 256 + 256 * (pa / 256 % 256) = pa by omega,
      ih rest (fun px hp => hpx px (by simp [hp]))]

theorem parseRows_layerBytes (w : Nat) :
    ∀ (buf : Buf) (rest : List Nat),
      (∀ row ∈ buf, row.length = w) →
      bufAll (pixLe 65535) buf →
      parseRows w buf.length (layerBytes buf ++ rest) = buf := by
  intro buf
  induction buf with
  | nil => intro rest _ _; rfl
  | cons row rbuf ih =>
    intro rest hw hpx
    show parsePixList w ((rowBytes row ++ layerBytes rbuf) ++ rest)
        :: parseRows w rbuf.length
            (((rowBytes row ++ layerBytes rbuf) ++ rest).drop (8 * w))
      = row :: rbuf
    rw [List.append_assoc]
    have h1 : parsePixList w (rowBytes row ++ (layerBytes rbuf ++ rest))
        = row := by
      rw [← hw row (by simp)]
      exact parsePixList_rowBytes row _ (fun px hp => hpx row (by simp) px hp)
    have h2 : (rowBytes row ++ (layerBytes rbuf ++ rest)).drop (8 * w)
        = layerBytes rbuf ++ rest := by
      rw [show 8 * w = (rowBytes row).length by
            rw [rowBytes_length, hw row (by simp)],
        List.drop_left]
    rw [h1, h2, ih rest (fun r hr => hw r (by simp [hr]))
      (fun r hr px hp => hpx r (by simp [hr]) px hp)]

theorem readLayers_payload (w h : Nat) :
    ∀ (bufs : List Buf),
      (∀ b ∈ bufs, bufSized h w b) →
      (∀ b ∈ bufs, bufAll (pixLe 65535) b) →
      readLayers w h bufs.length (bufs.map layerBytes).flatten
        = .ok bufs := by
  intro bufs
  induction bufs with
  | nil => intro _ _; rfl
  | cons b rest ih =>
    intro hs hp
    obtain ⟨hbl, hbw⟩ := hs b (by simp)
    have hlb : (layerBytes b).length = w * h * 4 * 2 := by
      rw [layerBytes_length b w hbw, hbl]
      ring
    simp only [List.map_cons, List.flatten_cons, List.length_cons, readLayers]
    rw [if_pos (by rw [List.length_append, hlb]; omega)]
    have htake : (layerBytes b ++ (rest.map layerBytes).flatten).take (w * h * 4 * 2)
        = layerBytes b := by
      rw [← hlb, List.take_left]
    have hdrop : (layerBytes b ++ (rest.map layerBytes).flatten).drop (w * h * 4 * 2)
        = (rest.map layerBytes).flatten := by
      rw [← hlb, List.drop_left]
    rw [htake, hdrop,
      ih (fun x hx => hs x (by simp [hx])) (fun x hx => hp x (by simp [hx]))]
    have hpr : parseRows w h (layerBytes b) = b := by
      have hgen := parseRows_layerBytes w b []
        hbw (fun r hr px hp2 => hp b (by simp) r hr px hp2)
      rw [List.append_nil, hbl] at hgen
      exact hgen
    show Except.ok (parseRows w h (layerBytes b) :: rest) = Except.ok (b :: rest)
    rw [hpr]

theorem mapM_ok_of_ok {α β : Type} (g : α → β) (f : α → Except String β)
    (hf : ∀ x, f x = .ok (g x)) :
    ∀ xs : List α, xs.mapM f = .ok (xs.map g)
  | [] => by simp [List.mapM_nil]; rfl
  | x :: xs => by
    rw [List.mapM_cons, hf x, mapM_ok_of_ok g f hf xs]
    rfl

theorem foldl_add_layer :
    ∀ (ls : List Layer) (c : Canvas),
      (ls.foldl (fun cv l2 => (cv.add_layer (some l2)).1) c).layers
        = c.layers ++ ls
  | [], c => by simp
  | l :: ls, c => by
    rw [List.foldl_cons, foldl_add_layer ls]
    simp [Canvas.add_layer]

/-- Rebuilding one decoded layer through the `unlocked()` write path
succeeds and stores exactly the chunk's buffer. -/
theorem withUnlocked_set_full (w h : Nat) (buf : Buf) :
    (Layer.init w h 65535).withUnlocked (fun l2 => l2.set_full buf)
      = .ok { Layer.init w h 65535 with data := buf } := rfl

/-- The decode tail of `read_ksp` on an exact payload: slicing,
reshaping, layer reconstruction and stack assembly reproduce the
buffers in order. -/
theorem decode_tail_ok (w h : Nat) (bufs : List Buf)
    (hs : ∀ b ∈ bufs, bufSized h w b)
    (hp : ∀ b ∈ bufs, bufAll (pixLe 65535) b) :
    (do
      let bufs2 ← readLayers w h bufs.length (bufs.map layerBytes).flatten
      let layers ← bufs2.mapM fun buf =>
        (Layer.init w h 65535).withUnlocked fun l2 => l2.set_full buf
      (.ok ⟨layers.foldl (fun cv l2 => (cv.add_layer (some l2)).1)
          { Canvas.init w h 65535 with layers := [] }⟩
        : Except String SimpleFile))
      = .ok ⟨(bufs.map (fun buf =>
            { Layer.init w h 65535 with data := buf })).foldl
          (fun cv l2 => (cv.add_layer (some l2)).1)
          { Canvas.init w h 65535 with layers := [] }⟩ := by
  rw [readLayers_payload w h bufs hs hp]
  show (do
      let layers ← bufs.mapM fun buf =>
        (Layer.init w h 65535).withUnlocked fun l2 => l2.set_full buf
      (.ok ⟨layers.foldl (fun cv l2 => (cv.add_layer (some l2)).1)
          { Canvas.init w h 65535 with layers := [] }⟩
        : Except String SimpleFile)) = _
  rw [mapM_ok_of_ok (fun buf => { Layer.init w h 65535 with data := buf })
    _ (fun buf => withUnlocked_set_full w h buf) bufs]
  rfl

/-- `C3`: encoding a stack of same-dimension uint16 RGBA layers to the
KSP byte format and decoding those bytes yields the same number of
layers, with byte-for-byte equal buffers, in the same bottom-to-top
order — for the compressed (`flag = true`, `compressionFlag = 1`, what
the source emits) and the raw (`flag = false`, `compressionFlag = 0`,
which the decoder equally accepts) payload layout, given zlib's
round-trip contract `decomp ∘ comp = id`. -/
theorem ksp_encode_decode_roundtrip (comp decomp : List Nat → List Nat)
    (flag : Bool) (sf : SimpleFile)
    (hcd : ∀ bs, decomp (comp bs) = bs)
    (hw : sf.width < 2 ^ 32) (hh : sf.height < 2 ^ 32)
    (hn : sf.layers.length < 2 ^ 16)
    (hdims : ∀ L ∈ sf.layers, bufSized sf.height sf.width L.data)
    (hchan : ∀ L ∈ sf.layers, bufAll (pixLe 65535) L.data) :
    ∃ out sf2, write_ksp_flag comp flag sf = .ok out
      ∧ read_ksp decomp out = .ok sf2
      ∧ sf2.layers.map Layer.data = sf.layers.map Layer.data := by
  have hwrite : write_ksp_flag comp flag sf
      = .ok (kspHeader sf.width sf.height (if flag then 1 else 0)
          sf.layers.length
        ++ (if flag then comp (kspPayload sf.layers)
            else kspPayload sf.layers)) := by
    rw [write_ksp_flag, if_pos ⟨hw, hh, hn⟩]
  have hwrec : sf.width % 256 + 256 * (sf.width / 256 % 256)
      + 65536 * (sf.width / 65536 % 256)
      + 16777216 * (sf.width / 16777216 % 256) = sf.width := by omega
  have hhrec : sf.height % 256 + 256 * (sf.height / 256 % 256)
      + 65536 * (sf.height / 65536 % 256)
      + 16777216 * (sf.height / 16777216 % 256) = sf.height := by omega
  have hnrec : sf.layers.length % 256 + 256 * (sf.layers.length / 256 % 256)
      = sf.layers.length := by omega
  have hpay : kspPayload sf.layers
      = ((sf.layers.map Layer.data).map layerBytes).flatten := by
    rw [kspPayload, List.map_map]
    rfl
  have hlen : sf.layers.length = (sf.layers.map Layer.data).length :=
    (List.length_map _ _).symm
  have hs2 : ∀ b ∈ sf.layers.map Layer.data, bufSized sf.height sf.width b := by
    intro b hb
    obtain ⟨L, hL, hbe⟩ := List.mem_map.1 hb
    exact hbe ▸ hdims L hL
  have hp2 : ∀ b ∈ sf.layers.map Layer.data, bufAll (pixLe 65535) b := by
    intro b hb
    obtain ⟨L, hL, hbe⟩ := List.mem_map.1 hb
    exact hbe ▸ hchan L hL
  refine ⟨_, ⟨((sf.layers.map Layer.data).map (fun buf =>
        { Layer.init sf.width sf.height 65535 with data := buf })).foldl
      (fun cv l2 => (cv.add_layer (some l2)).1)
      { Canvas.init sf.width sf.height 65535 with layers := [] }⟩,
    hwrite, ?_, ?_⟩
  · cases flag with
    | false =>
      simp only [read_ksp, kspHeader, List.cons_append, List.nil_append,
        Bool.false_eq_true, if_false, ne_eq]
      rw [if_neg (by simp), if_neg (by simp)]
      rw [if_neg (by simp)]
      rw [hwrec, hhrec, hnrec, hpay, hlen]
      exact decode_tail_ok sf.width sf.height (sf.layers.map Layer.data)
        hs2 hp2
    | true =>
      simp only [read_ksp, kspHeader, List.cons_append, List.nil_append,
        if_true, ne_eq]
      rw [if_neg (by simp), if_neg (by simp)]
      rw [if_pos (by simp)]
      rw [hcd, hwrec, hhrec, hnrec, hpay, hlen]
      exact decode_tail_ok sf.width sf.height (sf.layers.map Layer.data)
        hs2 hp2
  · show (SimpleFile.layers _).map Layer.data = _
    rw [SimpleFile.layers, foldl_add_layer]
    simp [List.map_map, Function.comp]

/-- `C3` witness: a concrete one-layer 1×1 uint16 document, with the
identity as the (trivially lossless) compression pair, compressed
layout. -/
theorem ksp_encode_decode_roundtrip_witness :
    (∀ bs : List Nat, id (id bs) = bs)
    ∧ (SimpleFile.mk ((Canvas.init 1 1 65535).add_layer
        (some (Layer.init 1 1 65535))).1).width < 2 ^ 32
    ∧ (SimpleFile.mk ((Canvas.init 1 1 65535).add_layer
        (some (Layer.init 1 1 65535))).1).height < 2 ^ 32
    ∧ (SimpleFile.mk ((Canvas.init 1 1 65535).add_layer
        (some (Layer.init 1 1 65535))).1).layers.length < 2 ^ 16
    ∧ (∀ L ∈ (SimpleFile.mk ((Canvas.init 1 1 65535).add_layer
        (some (Layer.init 1 1 65535))).1).layers, bufSized 1 1 L.data)
    ∧ (∀ L ∈ (SimpleFile.mk ((Canvas.init 1 1 65535).add_layer
        (some (Layer.init 1 1 65535))).1).layers, bufAll (pixLe 65535) L.data)
    ∧ (∃ out sf2, write_ksp_flag id true
          (SimpleFile.mk ((Canvas.init 1 1 65535).add_layer
            (some (Layer.init 1 1 65535))).1) = .ok out
        ∧ read_ksp id out = .ok sf2
        ∧ sf2.layers.map Layer.data
            = (SimpleFile.mk ((Canvas.init 1 1 65535).add_layer
                (some (Layer.init 1 1 65535))).1).layers.map Layer.data) :=
  ⟨fun _ => rfl, by decide, by decide, by decide, by decide, by decide,
   ksp_encode_decode_roundtrip id id true
     (SimpleFile.mk ((Canvas.init 1 1 65535).add_layer
       (some (Layer.init 1 1 65535))).1)
     (fun _ => rfl) (by decide) (by decide) (by decide) (by decide) (by decide)⟩

/-- `C10`: for every input document the encoder emits compression flag
`1` (byte 14 of the header) and a `zlib.compress`ed payload — it never
writes a raw (`compressionFlag = 0`) payload, even though the decoder
accepts both flag values. -/
theorem write_ksp_always_compressed (comp : List Nat → List Nat)
    (sf : SimpleFile) (hw : sf.width < 2 ^ 32) (hh : sf.height < 2 ^ 32)
    (hn : sf.layers.length < 2 ^ 16) :
    ∃ out, write_ksp comp sf = .ok out
      ∧ out = kspHeader sf.width sf.height 1 sf.layers.length
          ++ comp (kspPayload sf.layers)
      ∧ out.getD 14 0 = 1 := by
  refine ⟨kspHeader sf.width sf.height 1 sf.layers.length
      ++ comp (kspPayload sf.layers), ?_, rfl, ?_⟩
  · rw [write_ksp, write_ksp_flag, if_pos ⟨hw, hh, hn⟩]
    rfl
  · rfl

/-- `C10` witness: the empty 1×1 document. -/
theorem write_ksp_always_compressed_witness :
    (SimpleFile.init 1 1).width < 2 ^ 32
    ∧ (SimpleFile.init 1 1).height < 2 ^ 32
    ∧ (SimpleFile.init 1 1).layers.length < 2 ^ 16
    ∧ (∃ out, write_ksp id (SimpleFile.init 1 1) = .ok out
        ∧ out = kspHeader (SimpleFile.init 1 1).width
            (SimpleFile.init 1 1).height 1
            (SimpleFile.init 1 1).layers.length
          ++ id (kspPayload (SimpleFile.init 1 1).layers)
        ∧ out.getD 14 0 = 1) :=
  ⟨by decide, by decide, by decide,
   write_ksp_always_compressed id (SimpleFile.init 1 1)
     (by decide) (by decide) (by decide)⟩

end Painter
